import Mathlib

/-!
# Verification of the rqt_bag_player session controller

Shallow embedding of `src/rqt_bag_player/mainwindow.cpp` (class
`MainWindow::Impl`).  The GUI widgets are modelled by the data they hold:

* the play/record `QTreeWidget`s become lists of `(topicName, checked)` pairs,
* the time spin boxes become rational values (a `QDoubleSpinBox.setValue`
  clamps into its configured range `[0, 9999]`),
* `QProcess::startDetached(prog, args)` calls become emitted `Action.spawn`
  values, returned alongside the new state in emission order,
* `ros::Time::now().toNSec()` is passed in as a `Nat` parameter `now`,
* dialog interactions (`QFileDialog`, the config dialog) are passed in as
  `Option` results.

Machine doubles are modelled as `ℚ`.  The one place the C++ can divide by
zero (`on_timeSpin_valueChanged`, which feeds the quotient into an `int`
conversion, undefined for non-finite doubles) is modelled as `Option`.
-/

namespace BagPlayer

/-- C++ truncation of a real value to `int` (rounds toward zero), used for the
implicit `double → int` conversion in `timeSlider->setValue(...)`. -/
def truncQ (q : ℚ) : ℤ := if 0 ≤ q then ⌊q⌋ else ⌈q⌉

/-- Embedding of `MainWindow::Impl::on_timeSpin_valueChanged` (the
elapsed-time → slider-units conversion).  The C++ computes
`rate = value / duration` with no guard and passes `(max - min) * rate` to
`timeSlider->setValue(int)`; when `duration == 0` the IEEE quotient is
non-finite and the `double → int` conversion is undefined, so that case is
modelled as `none`. -/
def on_timeSpin_valueChanged (value duration : ℚ) (mn mx : ℤ) : Option ℤ :=
  if duration = 0 then none
  else some (truncQ (((mx - mn : ℤ) : ℚ) * (value / duration)))

/-- Embedding of `MainWindow::Impl::on_timeSlider_valueChanged` (the
slider-units → elapsed-time conversion): `rate = value / (max - min)` and the
spin box is set to `duration * rate`. -/
def on_timeSlider_valueChanged (value : ℤ) (duration : ℚ) (mn mx : ℤ) : ℚ :=
  duration * ((value : ℚ) / ((mx - mn : ℤ) : ℚ))

/-- Metadata of an opened bag file as delivered by the log-reading
collaborator (`rosbag::View`): begin/end timestamps and the topic list of
`view.getConnections()`, in connection order. -/
structure Bag where
  beginTime : ℚ
  endTime : ℚ
  topics : List String
deriving DecidableEq

/-- The state held by `MainWindow::Impl`: member variables plus the data of
the widgets the member functions read and write.  `playTopics` /
`recordTopics` are the tree-widget rows as `(topicName, checked)` pairs;
`recordActChecked` is the toggle state of the checkable record action;
`numTopics` is the `static int numTopics` of `on_timer_timeout`. -/
structure State where
  filePath : String
  playNode : String
  recordNode : String
  is_playing : Bool
  is_recording : Bool
  is_loop_checked : Bool
  is_clock_checked : Bool
  rate : ℚ
  recordActChecked : Bool
  playTopics : List (String × Bool)
  recordTopics : List (String × Bool)
  numTopics : Nat
  begin_time : ℚ
  end_time : ℚ
  beginTimeSpin : ℚ
  endTimeSpin : ℚ
  timeSpin : ℚ
deriving DecidableEq

/-- One `QProcess::startDetached(prog, args)` call. -/
inductive Action where
  | spawn (prog : String) (args : List String)
deriving DecidableEq

/-- `rosnode kill /<node>`, as emitted by `record(false)` and `stop()`. -/
def kill (node : String) : Action :=
  Action.spawn "rosnode" ["kill", "/" ++ node]

/-- `QDoubleSpinBox::setValue` clamps into the configured range
`[0, 9999]`. -/
def clampSpin (x : ℚ) : ℚ := max 0 (min x 9999)

/-- The state right after `MainWindow::Impl::Impl` runs: flags false except
`is_clock_checked`, rate 1, every string cleared, both trees empty. -/
def init : State :=
  { filePath := ""
    playNode := ""
    recordNode := ""
    is_playing := false
    is_recording := false
    is_loop_checked := false
    is_clock_checked := true
    rate := 1
    recordActChecked := false
    playTopics := []
    recordTopics := []
    numTopics := 0
    begin_time := 0
    end_time := 0
    beginTimeSpin := 0
    endTimeSpin := 0
    timeSpin := 0 }

/-- `QString("record_%1").arg(ros::Time::now().toNSec())`. -/
def recordNodeName (now : Nat) : String := "record_" ++ toString now

/-- `QString("play_%1").arg(ros::Time::now().toNSec())`. -/
def playNodeName (now : Nat) : String := "play_" ++ toString now

/-- Rendering of a double for `QString("%1").arg(...)` argument building. -/
def fmtRat (q : ℚ) : String := toString q

/-- The `else` (unchecked) branch of `MainWindow::Impl::record`: kill the
record node if a recording is active, then force `is_recording` false. -/
def recordOff (s : State) : State × List Action :=
  if s.is_recording = true then
    ({ s with is_recording := false }, [kill s.recordNode])
  else
    ({ s with is_recording := false }, [])

/-- Embedding of `MainWindow::Impl::record(checked)`.  `count` is
`recordTree->topLevelItemCount()` (the number of rows, not the number of
checked rows).  When `count == 0` the C++ calls `recordAct->setChecked(false)`;
if the action was checked this synchronously re-enters `record(false)` via the
`toggled` signal, which is inlined here as `recordOff` on the state with the
toggle cleared.  When `checked && count > 0` the spawn is issued with the
checked topic names (possibly none of them) and `is_recording` becomes
true. -/
def record (checked : Bool) (now : Nat) (s : State) : State × List Action :=
  let count := s.recordTopics.length
  let p0 : State × List Action :=
    if count = 0 ∧ s.recordActChecked = true then
      recordOff { s with recordActChecked := false }
    else (s, [])
  if checked then
    if 0 < count then
      let names := (p0.1.recordTopics.filter (fun t => t.2)).map (fun t => t.1)
      let node := recordNodeName now
      ({ p0.1 with recordNode := node, is_recording := true },
        p0.2 ++ [Action.spawn "rosbag" (["record"] ++ names ++ ["__name:=" ++ node])])
    else
      ({ p0.1 with is_recording := false }, p0.2)
  else
    let p1 := recordOff p0.1
    (p1.1, p0.2 ++ p1.2)

/-- `recordAct->setChecked(b)` / a user click on the checkable record action:
when the checked state changes, the `toggled` signal runs `record(b)`. -/
def setRecordActChecked (b : Bool) (now : Nat) (s : State) : State × List Action :=
  if s.recordActChecked = b then (s, [])
  else record b now { s with recordActChecked := b }

/-- Embedding of `MainWindow::Impl::play`: spawns
`rosbag play <path> -q [--clock] -r <rate> -s <timeSpin> [-l] --topics <checked...>
__name:=<token>` and sets `is_playing` when a file path is loaded; otherwise
only forces `is_playing` false. -/
def play (now : Nat) (s : State) : State × List Action :=
  if s.filePath ≠ "" then
    let node := playNodeName now
    let args :=
      ["play", s.filePath, "-q"]
      ++ (if s.is_clock_checked then ["--clock"] else [])
      ++ ["-r", fmtRat s.rate]
      ++ ["-s", fmtRat s.timeSpin]
      ++ (if s.is_loop_checked then ["-l"] else [])
      ++ ["--topics"]
      ++ (s.playTopics.filter (fun t => t.2)).map (fun t => t.1)
      ++ ["__name:=" ++ node]
    ({ s with playNode := node, is_playing := true }, [Action.spawn "rosbag" args])
  else
    ({ s with is_playing := false }, [])

/-- Embedding of `MainWindow::Impl::stop`: kill the play node if playing.
Note that `playNode` itself is never cleared. -/
def stop (s : State) : State × List Action :=
  if s.is_playing = true then
    ({ s with is_playing := false }, [kill s.playNode])
  else (s, [])

/-- `MainWindow::Impl::clickPlay`: reset the time spin box to 0, then play. -/
def clickPlay (now : Nat) (s : State) : State × List Action :=
  play now { s with timeSpin := clampSpin 0 }

/-- `MainWindow::Impl::clickResume`: stop when playing, else play. -/
def clickResume (now : Nat) (s : State) : State × List Action :=
  if s.is_playing = true then stop s else play now s

/-- `MainWindow::Impl::clickStop`: when recording, uncheck the record action
(whose `toggled` signal runs `record(false)`), then `stop()`. -/
def clickStop (s : State) : State × List Action :=
  let p1 : State × List Action :=
    if s.is_recording = true then setRecordActChecked false 0 s else (s, [])
  let p2 := stop p1.1
  (p2.1, p1.2 ++ p2.2)

/-- Embedding of `MainWindow::Impl::loadFile`: store the path, rebuild the
play tree from the connections of the bag with every row checked, set the begin/end
spin boxes.  `timeSpin` is not touched. -/
def loadFile (fileName : String) (bag : Bag) (s : State) : State :=
  { s with
    filePath := fileName
    playTopics := bag.topics.map (fun t => (t, true))
    begin_time := bag.beginTime
    end_time := bag.endTime
    beginTimeSpin := clampSpin 0
    endTimeSpin := clampSpin (bag.endTime - bag.beginTime) }

/-- Embedding of `MainWindow::Impl::open`: stop when playing, then run the
file dialog (its result is the `dialog` argument; `none` or an empty name
means cancel) and load the chosen file. -/
def openFile (dialog : Option (String × Bag)) (s : State) : State × List Action :=
  let p : State × List Action := if s.is_playing = true then stop s else (s, [])
  match dialog with
  | none => p
  | some fb =>
    if fb.1 = "" then p
    else (loadFile fb.1 fb.2 p.1, p.2)

/-- The filter predicate string built by `MainWindow::Impl::saveFile`:
`"topic == "` followed by a quoted name plus `" or "` for every checked play topic, with
the final four characters removed by `option.chop(4)`. -/
def saveFilterOption (topics : List (String × Bool)) : String :=
  let option :=
    "topic == " ++
      String.join ((topics.filter (fun t => t.2)).map
        (fun t => "\x27" ++ t.1 ++ "\x27 or "))
  option.dropRight 4

/-- Embedding of `MainWindow::Impl::saveFile`: when the play tree is
non-empty, spawn `rosbag filter <src> <dst> <predicate>`. -/
def saveFile (fileName : String) (s : State) : State × List Action :=
  if 0 < s.playTopics.length then
    (s, [Action.spawn "rosbag"
      ["filter", s.filePath, fileName, saveFilterOption s.playTopics]])
  else (s, [])

/-- Embedding of `MainWindow::Impl::save`: stop when playing, then run the
save dialog and hand the chosen destination to `saveFile`. -/
def saveAction (dialog : Option String) (s : State) : State × List Action :=
  let p : State × List Action := if s.is_playing = true then stop s else (s, [])
  match dialog with
  | none => p
  | some fileName =>
    if fileName = "" then p
    else
      let q := saveFile fileName p.1
      (q.1, p.2 ++ q.2)

/-- Embedding of `MainWindow::Impl::config`: the dialog result (`none` means
cancel) replaces loop/clock/rate wholesale. -/
def config (dialog : Option (Bool × Bool × ℚ)) (s : State) : State :=
  match dialog with
  | none => s
  | some lcr => { s with
      is_loop_checked := lcr.1
      is_clock_checked := lcr.2.1
      rate := lcr.2.2 }

/-- `MainWindow::Impl::checkPlay`: set the check state of every play row. -/
def checkPlay (checked : Bool) (s : State) : State :=
  { s with playTopics := s.playTopics.map (fun t => (t.1, checked)) }

/-- `MainWindow::Impl::checkRecord`: set the check state of every record row. -/
def checkRecord (checked : Bool) (s : State) : State :=
  { s with recordTopics := s.recordTopics.map (fun t => (t.1, checked)) }

/-- Embedding of `MainWindow::Impl::on_timer_timeout`: `topics` is the
`ros::master::getTopics` result (`none` when the call fails).  When the size
differs from the remembered count, the record tree is rebuilt wholesale with
every row checked. -/
def on_timer_timeout (topics : Option (List (String × String))) (s : State) : State :=
  match topics with
  | none => s
  | some ts =>
    if ts.length ≠ s.numTopics then
      { s with
        numTopics := ts.length
        recordTopics := ts.map (fun t => (t.1, true)) }
    else s

/-- Embedding of `MainWindow::Impl::clockCallback`: the spin box is set to
`clock - begin_time`. -/
def clockCallback (clock : ℚ) (s : State) : State :=
  { s with timeSpin := clampSpin (clock - s.begin_time) }

/-- A user edit of the time spin box (the connected handler only updates the
slider, whose signals are blocked). -/
def spinEdit (value : ℚ) (s : State) : State :=
  { s with timeSpin := clampSpin value }

/-- A user move of the slider: `on_timeSlider_valueChanged` writes the
converted elapsed time into the spin box (signals blocked).  The slider range
is `[0, 100]` in `createToolBars`. -/
def sliderEdit (value : ℤ) (s : State) : State :=
  { s with timeSpin :=
      clampSpin (on_timeSlider_valueChanged value (s.endTimeSpin - s.beginTimeSpin) 0 100) }

/-- Every stimulus the controller reacts to: user actions with their dialog
results, the periodic topic poll, the clock subscription, widget edits. -/
inductive Event where
  | evOpen (dialog : Option (String × Bag))
  | evSave (dialog : Option String)
  | evRecordToggle (checked : Bool) (now : Nat)
  | evClickPlay (now : Nat)
  | evClickResume (now : Nat)
  | evClickStop
  | evConfig (dialog : Option (Bool × Bool × ℚ))
  | evCheckPlay (checked : Bool)
  | evCheckRecord (checked : Bool)
  | evTimerTick (topics : Option (List (String × String)))
  | evClockTick (clock : ℚ)
  | evSpinEdit (value : ℚ)
  | evSliderEdit (value : ℤ)
deriving DecidableEq

/-- One controller step: dispatch an event to the member function that
handles it, returning the new state and the spawn actions it emitted. -/
def step (e : Event) (s : State) : State × List Action :=
  match e with
  | Event.evOpen dialog => openFile dialog s
  | Event.evSave dialog => saveAction dialog s
  | Event.evRecordToggle b now => setRecordActChecked b now s
  | Event.evClickPlay now => clickPlay now s
  | Event.evClickResume now => clickResume now s
  | Event.evClickStop => clickStop s
  | Event.evConfig dialog => (config dialog s, [])
  | Event.evCheckPlay b => (checkPlay b s, [])
  | Event.evCheckRecord b => (checkRecord b s, [])
  | Event.evTimerTick topics => (on_timer_timeout topics s, [])
  | Event.evClockTick t => (clockCallback t s, [])
  | Event.evSpinEdit v => (spinEdit v s, [])
  | Event.evSliderEdit v => (sliderEdit v s, [])

/-- Run a list of events from a given state, discarding the actions. -/
def runFrom (s : State) (evs : List Event) : State :=
  evs.foldl (fun t e => (step e t).1) s

/-- The state reached from the freshly constructed window by a list of
events; every reachable state is `run evs` for some `evs`. -/
def run (evs : List Event) : State := runFrom init evs

/-- Structural invariant maintained by every handler: a set play (resp.
record) flag has a non-empty node token behind it, and an active recording
keeps the record action checked.  The converse of the token part is false:
`stop` and `record(false)` clear the flags but never the tokens. -/
def Inv (s : State) : Prop :=
  (s.is_playing = true → s.playNode ≠ "") ∧
  (s.is_recording = true → s.recordNode ≠ "") ∧
  (s.is_recording = true → s.recordActChecked = true)

/-! ## Helper lemmas -/

lemma playNodeName_ne_empty (n : Nat) : playNodeName n ≠ "" := by
  intro h
  have h1 : (playNodeName n).length = 0 := by rw [h]; rfl
  rw [playNodeName, String.length_append] at h1
  have h2 : ("play_" : String).length = 5 := rfl
  omega

lemma recordNodeName_ne_empty (n : Nat) : recordNodeName n ≠ "" := by
  intro h
  have h1 : (recordNodeName n).length = 0 := by rw [h]; rfl
  rw [recordNodeName, String.length_append] at h1
  have h2 : ("record_" : String).length = 7 := rfl
  omega

lemma stop_fst (s : State) :
    (stop s).1.is_playing = false ∧
    (stop s).1.is_recording = s.is_recording ∧
    (stop s).1.recordNode = s.recordNode ∧
    (stop s).1.recordActChecked = s.recordActChecked ∧
    (stop s).1.playNode = s.playNode := by
  unfold stop
  split <;> simp_all

lemma stop_snd (s : State) :
    (stop s).2 = if s.is_playing = true then [kill s.playNode] else [] := by
  unfold stop
  split <;> simp_all

lemma record_false_eq (now : Nat) (s : State) (h : s.recordActChecked = false) :
    record false now s =
      ({ s with is_recording := false },
        if s.is_recording = true then [kill s.recordNode] else []) := by
  unfold record recordOff
  simp [h]
  split <;> simp_all

lemma inv_stop (s : State) (h : Inv s) : Inv (stop s).1 := by
  obtain ⟨h1, h2, h3⟩ := h
  obtain ⟨g1, g2, g3, g4, g5⟩ := stop_fst s
  refine ⟨?_, ?_, ?_⟩
  · intro hp
    rw [g1] at hp
    cases hp
  · intro hr
    rw [g2] at hr
    rw [g3]
    exact h2 hr
  · intro hr
    rw [g2] at hr
    rw [g4]
    exact h3 hr

lemma inv_play (now : Nat) (s : State) (h : Inv s) : Inv (play now s).1 := by
  obtain ⟨h1, h2, h3⟩ := h
  unfold Inv play
  split
  · refine ⟨?_, ?_, ?_⟩ <;> intro hx <;> simp_all [playNodeName_ne_empty]
  · refine ⟨?_, ?_, ?_⟩ <;> intro hx <;> simp_all

lemma record_true_eq (now : Nat) (s : State) (h : s.recordActChecked = true) :
    record true now s =
      if s.recordTopics.length = 0 then
        ({ s with recordActChecked := false, is_recording := false },
          if s.is_recording = true then [kill s.recordNode] else [])
      else
        ({ s with recordNode := recordNodeName now, is_recording := true },
          [Action.spawn "rosbag" (["record"]
            ++ (s.recordTopics.filter (fun t => t.2)).map (fun t => t.1)
            ++ ["__name:=" ++ recordNodeName now])]) := by
  by_cases hc : s.recordTopics.length = 0
  · simp only [record, recordOff, hc, h, and_self, if_true, reduceIte]
    split_ifs <;> simp_all
  · have hlt : 0 < s.recordTopics.length := Nat.pos_of_ne_zero hc
    simp [record, recordOff, hc, hlt]

lemma inv_setRecordActChecked (b : Bool) (now : Nat) (s : State) (h : Inv s) :
    Inv (setRecordActChecked b now s).1 := by
  obtain ⟨h1, h2, h3⟩ := h
  unfold setRecordActChecked
  split
  · exact ⟨h1, h2, h3⟩
  · rcases b with _ | _
    · rw [record_false_eq now _ rfl]
      exact ⟨h1, by simp, by simp⟩
    · rw [record_true_eq now _ rfl]
      by_cases hc :
          ({ s with recordActChecked := true } : State).recordTopics.length = 0
      · rw [if_pos hc]
        exact ⟨h1, by simp, by simp⟩
      · rw [if_neg hc]
        refine ⟨h1, ?_, ?_⟩
        · intro hx
          exact recordNodeName_ne_empty now
        · intro hx
          rfl

lemma inv_clickPlay (now : Nat) (s : State) (h : Inv s) :
    Inv (clickPlay now s).1 :=
  inv_play now _ h

lemma inv_clickResume (now : Nat) (s : State) (h : Inv s) :
    Inv (clickResume now s).1 := by
  unfold clickResume
  split
  · exact inv_stop s h
  · exact inv_play now s h

lemma inv_clickStop (s : State) (h : Inv s) : Inv (clickStop s).1 := by
  unfold clickStop
  apply inv_stop
  split
  · exact inv_setRecordActChecked false 0 s h
  · exact h

lemma inv_loadFile (f : String) (bag : Bag) (s : State) (h : Inv s) :
    Inv (loadFile f bag s) := h

lemma inv_openFile (dialog : Option (String × Bag)) (s : State) (h : Inv s) :
    Inv (openFile dialog s).1 := by
  have hp : Inv (if s.is_playing = true then stop s else (s, [])).1 := by
    split
    · exact inv_stop s h
    · exact h
  cases dialog with
  | none => exact hp
  | some fb =>
    by_cases hf : fb.1 = ""
    · simpa [openFile, hf] using hp
    · simpa [openFile, hf] using inv_loadFile fb.1 fb.2 _ hp

lemma saveFile_fst (f : String) (s : State) : (saveFile f s).1 = s := by
  unfold saveFile
  split <;> rfl

lemma inv_saveAction (dialog : Option String) (s : State) (h : Inv s) :
    Inv (saveAction dialog s).1 := by
  have hp : Inv (if s.is_playing = true then stop s else (s, [])).1 := by
    split
    · exact inv_stop s h
    · exact h
  cases dialog with
  | none => exact hp
  | some f =>
    by_cases hf : f = ""
    · simpa [saveAction, hf] using hp
    · have h2 : Inv (saveFile f
          (if s.is_playing = true then stop s else (s, [])).1).1 := by
        rw [saveFile_fst]
        exact hp
      simpa [saveAction, hf] using h2

lemma inv_config (dialog : Option (Bool × Bool × ℚ)) (s : State) (h : Inv s) :
    Inv (config dialog s) := by
  cases dialog with
  | none => exact h
  | some lcr => exact h

lemma inv_on_timer_timeout (topics : Option (List (String × String)))
    (s : State) (h : Inv s) : Inv (on_timer_timeout topics s) := by
  cases topics with
  | none => exact h
  | some ts =>
    by_cases hn : ts.length ≠ s.numTopics
    · simpa [on_timer_timeout, hn] using h
    · simpa [on_timer_timeout, hn] using h

lemma inv_step (e : Event) (s : State) (h : Inv s) : Inv (step e s).1 := by
  cases e with
  | evOpen dialog => exact inv_openFile dialog s h
  | evSave dialog => exact inv_saveAction dialog s h
  | evRecordToggle b now => exact inv_setRecordActChecked b now s h
  | evClickPlay now => exact inv_clickPlay now s h
  | evClickResume now => exact inv_clickResume now s h
  | evClickStop => exact inv_clickStop s h
  | evConfig dialog => exact inv_config dialog s h
  | evCheckPlay b => exact h
  | evCheckRecord b => exact h
  | evTimerTick topics => exact inv_on_timer_timeout topics s h
  | evClockTick t => exact h
  | evSpinEdit v => exact h
  | evSliderEdit v => exact h

lemma inv_init : Inv init := by
  refine ⟨?_, ?_, ?_⟩ <;> intro h <;> simp [init] at h

lemma inv_runFrom (evs : List Event) (s : State) (h : Inv s) :
    Inv (runFrom s evs) := by
  induction evs generalizing s with
  | nil => exact h
  | cons e evs ih => exact ih (step e s).1 (inv_step e s h)

lemma inv_run (evs : List Event) : Inv (run evs) :=
  inv_runFrom evs init inv_init

lemma clickStop_eq (s : State)
    (hac : s.is_recording = true → s.recordActChecked = true) :
    (clickStop s).1.is_playing = false ∧
    (clickStop s).1.is_recording = false ∧
    (clickStop s).2 =
      (if s.is_recording = true then [kill s.recordNode] else []) ++
      (if s.is_playing = true then [kill s.playNode] else []) := by
  by_cases hr : s.is_recording = true
  · have h1 : s.recordActChecked = true := hac hr
    have hrw : setRecordActChecked false 0 s
        = ({ s with recordActChecked := false, is_recording := false },
            [kill s.recordNode]) := by
      unfold setRecordActChecked
      rw [if_neg (by simp [h1])]
      rw [record_false_eq 0 _ rfl]
      simp [hr]
    unfold clickStop
    rw [if_pos hr, hrw]
    unfold stop
    by_cases hp : s.is_playing = true <;> simp_all
  · simp only [clickStop]
    rw [if_neg hr]
    refine ⟨(stop_fst _).1, ?_, ?_⟩
    · rw [(stop_fst _).2.1]
      simpa using hr
    · rw [stop_snd]
      simp [hr]

/-! ## Claim C2 -/

/-- C2: evaluating the filter-predicate builder of `saveFile` at the claimed
input: play selections `/a` and `/b` checked, `/c` unchecked.  The code
produces `topic == '/a' or '/b'` — the `topic == ` prefix appears once, not
once per clause — so the result is not the per-topic OR
`topic == '/a' or topic == '/b'` required by the claim. -/
theorem saveFilter_concrete_eval :
    saveFilterOption [("/a", true), ("/b", true), ("/c", false)] =
      "topic == \x27/a\x27 or \x27/b\x27" ∧
    saveFilterOption [("/a", true), ("/b", true), ("/c", false)] ≠
      "topic == \x27/a\x27 or topic == \x27/b\x27" := by
  decide

/-! ## Claim C3 -/

/-- C3 counterexample: the claim says the elapsed-to-scrub conversion with
duration 0 returns the unit-range minimum (here 0 for a slider range
`[0, 100]`).  The code has no guard at all: the division by zero makes the
slider update undefined (`none`), not `some U.min`. -/
theorem toScrubUnits_zero_duration_cex :
    ¬ (on_timeSpin_valueChanged 1 0 0 100 = some 0) := by
  decide

/-- C3 amended: `on_timeSpin_valueChanged` divides by the duration without a
zero guard, so with duration 0 the conversion has no defined result at all
(for every elapsed value and unit range): it is not a total function returning
`U.min`. -/
theorem toScrubUnits_zero_duration_unguarded (e : ℚ) (mn mx : ℤ) :
    on_timeSpin_valueChanged e 0 mn mx = none := by
  simp [on_timeSpin_valueChanged]

/-! ## Claim C4 -/

/-- C4: for every duration `d > 0`, unit range `[mn, mx]` with `mn < mx` and
elapsed `e ∈ [0, d]`, the elapsed value is recovered from its scrub-unit
quantization within one unit step: the slider value `v` exists (the conversion
succeeds), and `toElapsed(v)` is at most `e` and within `d / (mx - mn)` of it
(the elapsed-time value of one slider tick). -/
theorem timeline_roundtrip_quantization (e d : ℚ) (mn mx : ℤ)
    (hd : 0 < d) (he0 : 0 ≤ e) (hed : e ≤ d) (hmm : mn < mx) :
    ∃ v : ℤ, on_timeSpin_valueChanged e d mn mx = some v ∧
      on_timeSlider_valueChanged v d mn mx ≤ e ∧
      e - on_timeSlider_valueChanged v d mn mx ≤ d / ((mx - mn : ℤ) : ℚ) := by
  have hd0 : d ≠ 0 := ne_of_gt hd
  have hspan : (0 : ℚ) < ((mx - mn : ℤ) : ℚ) := by
    have h : (0 : ℤ) < mx - mn := by omega
    exact_mod_cast h
  have hc0 : ((mx - mn : ℤ) : ℚ) ≠ 0 := ne_of_gt hspan
  set c : ℚ := ((mx - mn : ℤ) : ℚ) with hc
  set x : ℚ := c * (e / d) with hx
  have hx0 : 0 ≤ x := by
    have : 0 ≤ e / d := div_nonneg he0 (le_of_lt hd)
    exact mul_nonneg (le_of_lt hspan) this
  have htr : truncQ x = ⌊x⌋ := by simp [truncQ, hx0]
  have hxc : d * (x / c) = e := by
    rw [hx]
    field_simp
    ring
  have hfl : (⌊x⌋ : ℚ) ≤ x := Int.floor_le x
  have hfl2 : x < (⌊x⌋ : ℚ) + 1 := Int.lt_floor_add_one x
  have key1 : d * ((⌊x⌋ : ℚ) / c) ≤ d * (x / c) := by gcongr
  have key2 : d * (x / c) ≤ d * (((⌊x⌋ : ℚ) + 1) / c) := by
    gcongr
  have expand : d * (((⌊x⌋ : ℚ) + 1) / c) = d * ((⌊x⌋ : ℚ) / c) + d / c := by
    field_simp
    ring
  refine ⟨⌊x⌋, ?_, ?_, ?_⟩
  · unfold on_timeSpin_valueChanged
    rw [if_neg hd0, ← hc, ← hx, htr]
  · show d * ((⌊x⌋ : ℚ) / c) ≤ e
    linarith
  · show e - d * ((⌊x⌋ : ℚ) / c) ≤ d / c
    linarith

/-- C4 witness: the round-trip bound at `e = 1`, `d = 2`, unit range
`[0, 100]`. -/
theorem timeline_roundtrip_quantization_witness :
    ∃ v : ℤ, on_timeSpin_valueChanged 1 2 0 100 = some v ∧
      on_timeSlider_valueChanged v 2 0 100 ≤ 1 ∧
      1 - on_timeSlider_valueChanged v 2 0 100 ≤ 2 / ((100 - 0 : ℤ) : ℚ) :=
  timeline_roundtrip_quantization 1 2 0 100 (by norm_num) (by norm_num)
    (by norm_num) (by norm_num)

/-! ## Claim C5 -/

/-- C5: `play` with an empty file path (no bag loaded) refuses the
transition: `is_playing` is set false and no process is spawned. -/
theorem play_no_file_refused (now : Nat) (s : State) (h : s.filePath = "") :
    (play now s).1.is_playing = false ∧ (play now s).2 = [] := by
  simp [play, h]

/-- C5 witness: the refusal at the freshly constructed state. -/
theorem play_no_file_refused_witness :
    (play 0 init).1.is_playing = false ∧ (play 0 init).2 = [] :=
  play_no_file_refused 0 init rfl

/-! ## Claim C6 -/

/-- C6 counterexample: with a loaded file and one play topic that is
unchecked (zero selected topics), `play` does NOT refuse: it issues a spawn
action and sets `is_playing` true.  The claimed `EmptySelectionError`
behaviour does not exist for play. -/
theorem play_zero_selected_still_spawns_cex :
    (play 5 { init with filePath := "/x.bag", playTopics := [("/a", false)] }).2 ≠ [] ∧
    (play 5 { init with filePath := "/x.bag", playTopics := [("/a", false)] }).1.is_playing = true := by
  decide

/-- C6 amended: `play` checks only that a file path is loaded.  With zero
selected play topics it still issues exactly one spawn action — whose
`--topics` list is empty — and sets `is_playing` true. -/
theorem play_zero_selected_spawns (now : Nat) (s : State)
    (hfile : s.filePath ≠ "")
    (hsel : ∀ t ∈ s.playTopics, t.2 = false) :
    (play now s).1.is_playing = true ∧ (play now s).2.length = 1 ∧
    s.playTopics.filter (fun t => t.2) = [] := by
  refine ⟨?_, ?_, ?_⟩
  · simp [play, hfile]
  · simp [play, hfile]
  · rw [List.filter_eq_nil_iff]
    intro t ht
    simp [hsel t ht]

/-- C6 amended witness: the spawn at a loaded file with one unchecked
topic. -/
theorem play_zero_selected_spawns_witness :
    (play 7 { init with filePath := "/y.bag", playTopics := [("/b", false)] }).1.is_playing = true ∧
    (play 7 { init with filePath := "/y.bag", playTopics := [("/b", false)] }).2.length = 1 ∧
    ({ init with filePath := "/y.bag", playTopics := [("/b", false)] } : State).playTopics.filter (fun t => t.2) = [] :=
  play_zero_selected_spawns 7 _ (by decide) (by decide)

/-! ## Claim C7 -/

/-- C7 counterexample: after a successful open the play selection does equal
the full topic set all-included, but `currentPosition` (the time spin box) is
NOT reset to 0: opening a bag at position 5 leaves it at 5. -/
theorem open_timeSpin_not_reset_cex :
    (openFile (some ("/b.bag", ⟨0, 1, ["/a"]⟩))
        { init with timeSpin := 5 }).1.playTopics = [("/a", true)] ∧
    (openFile (some ("/b.bag", ⟨0, 1, ["/a"]⟩))
        { init with timeSpin := 5 }).1.timeSpin ≠ 0 := by
  decide

/-- C7 amended: after `open` with a non-empty file name, the play-topic
selection equals the full topic set from the bag with every topic included,
and the playback position is left unchanged (it is reset only by
`clickPlay`). -/
theorem open_selection_all_included_position_kept (f : String) (bag : Bag)
    (s : State) (hf : f ≠ "") :
    (openFile (some (f, bag)) s).1.playTopics
        = bag.topics.map (fun t => (t, true)) ∧
    (openFile (some (f, bag)) s).1.timeSpin = s.timeSpin := by
  unfold openFile loadFile stop
  split <;> simp [hf]

/-- C7 amended witness: opening a two-topic bag at position 5. -/
theorem open_selection_all_included_position_kept_witness :
    (openFile (some ("/c.bag", (⟨0, 2, ["/a", "/b"]⟩ : Bag)))
        { init with timeSpin := 5 }).1.playTopics
        = (⟨0, 2, ["/a", "/b"]⟩ : Bag).topics.map (fun t => (t, true)) ∧
    (openFile (some ("/c.bag", (⟨0, 2, ["/a", "/b"]⟩ : Bag)))
        { init with timeSpin := 5 }).1.timeSpin
        = ({ init with timeSpin := 5 } : State).timeSpin :=
  open_selection_all_included_position_kept "/c.bag" _ _ (by decide)

/-! ## Claim C1 -/

/-- C1 counterexample: the record-topic list holds one entry and it is
unchecked (zero selected record topics), yet toggling the record action on
does NOT refuse: a spawn action is issued (with no topic names) and
`is_recording` becomes true.  The guard in `record` tests list emptiness,
not the number of checked entries. -/
theorem startRecord_unchecked_still_spawns_cex :
    (setRecordActChecked true 5 { init with recordTopics := [("/a", false)] }).1.is_recording = true ∧
    (setRecordActChecked true 5 { init with recordTopics := [("/a", false)] }).2 ≠ [] := by
  decide

/-- C1 amended: `record` refuses exactly when the record-topic list is empty
(then necessarily zero topics are selected): toggling the record action on
leaves `is_recording` false, issues no action, and resets the toggle.  (With a
non-empty list the spawn is issued even if nothing is checked.) -/
theorem startRecord_empty_list_refused (now : Nat) (s : State)
    (hempty : s.recordTopics = []) (hrec : s.is_recording = false)
    (hoff : s.recordActChecked = false) :
    (setRecordActChecked true now s).1.is_recording = false ∧
    (setRecordActChecked true now s).2 = [] ∧
    (setRecordActChecked true now s).1.recordActChecked = false := by
  unfold setRecordActChecked record recordOff
  simp [hoff, hempty, hrec]

/-- C1 amended witness: toggling record on with an empty record tree. -/
theorem startRecord_empty_list_refused_witness :
    (setRecordActChecked true 7 init).1.is_recording = false ∧
    (setRecordActChecked true 7 init).2 = [] ∧
    (setRecordActChecked true 7 init).1.recordActChecked = false :=
  startRecord_empty_list_refused 7 init rfl rfl rfl

/-! ## Claim C8 -/

/-- C8: in the sequence `open(A)`, `startPlay`, `open(B)`: before the second
open, the play selection is the topic set of A and the play token is the one
generated for A; the second open then emits exactly the kill action targeting
the token of A, and only its resulting state carries the topics of B — so
the kill is issued before the topics of B replace those of A. -/
theorem open_after_play_kills_old_token_first (fA fB : String) (bagA bagB : Bag)
    (nowA : Nat) (hA : fA ≠ "") (hB : fB ≠ "") :
    (run [Event.evOpen (some (fA, bagA)), Event.evClickPlay nowA]).playTopics
        = bagA.topics.map (fun t => (t, true)) ∧
    (step (Event.evOpen (some (fB, bagB)))
        (run [Event.evOpen (some (fA, bagA)), Event.evClickPlay nowA])).2
        = [kill (playNodeName nowA)] ∧
    (step (Event.evOpen (some (fB, bagB)))
        (run [Event.evOpen (some (fA, bagA)), Event.evClickPlay nowA])).1.playTopics
        = bagB.topics.map (fun t => (t, true)) := by
  refine ⟨?_, ?_, ?_⟩ <;>
    simp [run, runFrom, step, openFile, clickPlay, play, stop, loadFile,
      init, hA, hB]

/-- C8 witness: concrete two-bag scenario. -/
theorem open_after_play_kills_old_token_first_witness :
    (run [Event.evOpen (some ("/A.bag", (⟨0, 1, ["/a"]⟩ : Bag))),
        Event.evClickPlay 3]).playTopics
        = (⟨0, 1, ["/a"]⟩ : Bag).topics.map (fun t => (t, true)) ∧
    (step (Event.evOpen (some ("/B.bag", (⟨0, 2, ["/b"]⟩ : Bag))))
        (run [Event.evOpen (some ("/A.bag", (⟨0, 1, ["/a"]⟩ : Bag))),
          Event.evClickPlay 3])).2
        = [kill (playNodeName 3)] ∧
    (step (Event.evOpen (some ("/B.bag", (⟨0, 2, ["/b"]⟩ : Bag))))
        (run [Event.evOpen (some ("/A.bag", (⟨0, 1, ["/a"]⟩ : Bag))),
          Event.evClickPlay 3])).1.playTopics
        = (⟨0, 2, ["/b"]⟩ : Bag).topics.map (fun t => (t, true)) :=
  open_after_play_kills_old_token_first "/A.bag" "/B.bag" _ _ 3
    (by decide) (by decide)

/-! ## Claim C9 -/

/-- C9 counterexample: the reachable state open-play-stop has `is_playing`
false but still a non-empty play token (`stop` never clears `playNode`), so
"isPlaying iff the play token is set" is false in reachable states. -/
theorem stopped_state_keeps_token_cex :
    (run [Event.evOpen (some ("/A.bag", (⟨0, 1, ["/a"]⟩ : Bag))),
        Event.evClickPlay 3, Event.evClickStop]).is_playing = false ∧
    (run [Event.evOpen (some ("/A.bag", (⟨0, 1, ["/a"]⟩ : Bag))),
        Event.evClickPlay 3, Event.evClickStop]).playNode ≠ "" := by
  decide

/-- C9 amended: in every reachable state only the forward implications hold:
`is_playing` implies the play token is set (non-empty) and `is_recording`
implies the record token is set.  The converses are false because the stop
paths clear the flags but never the tokens. -/
theorem reachable_flag_implies_token (evs : List Event) :
    ((run evs).is_playing = true → (run evs).playNode ≠ "") ∧
    ((run evs).is_recording = true → (run evs).recordNode ≠ "") := by
  have h := inv_run evs
  exact ⟨h.1, h.2.1⟩

/-- C9 amended witness: after open-play the flag is set and the theorem
yields a non-empty token. -/
theorem reachable_flag_implies_token_witness :
    (run [Event.evOpen (some ("/A.bag", (⟨0, 1, ["/a"]⟩ : Bag))),
        Event.evClickPlay 3]).playNode ≠ "" :=
  (reachable_flag_implies_token
      [Event.evOpen (some ("/A.bag", (⟨0, 1, ["/a"]⟩ : Bag))),
        Event.evClickPlay 3]).1 (by decide)

/-! ## Claim C10 -/

/-- C10: on every reachable state, the user-facing stop action cancels both
sessions: after `clickStop` both `is_playing` and `is_recording` are false,
and the emitted actions are exactly the kill targeting the record token (when
recording was active, via unchecking the record toggle) followed by the kill
targeting the play token (when playing was active). -/
theorem clickStop_stops_both (evs : List Event) :
    (clickStop (run evs)).1.is_playing = false ∧
    (clickStop (run evs)).1.is_recording = false ∧
    (clickStop (run evs)).2 =
      (if (run evs).is_recording = true then [kill (run evs).recordNode]
        else []) ++
      (if (run evs).is_playing = true then [kill (run evs).playNode]
        else []) :=
  clickStop_eq (run evs) (inv_run evs).2.2

/-- C10 witness: a concrete reachable state with both sessions active — one
record topic discovered and toggled on, play started — where `clickStop`
emits the record kill before the play kill and clears both flags. -/
theorem clickStop_stops_both_witness :
    (clickStop (run [Event.evOpen (some ("/A.bag", (⟨0, 1, ["/a"]⟩ : Bag))),
        Event.evTimerTick (some [("/t", "std_msgs/String")]),
        Event.evRecordToggle true 4, Event.evClickPlay 5])).1.is_playing
        = false ∧
    (clickStop (run [Event.evOpen (some ("/A.bag", (⟨0, 1, ["/a"]⟩ : Bag))),
        Event.evTimerTick (some [("/t", "std_msgs/String")]),
        Event.evRecordToggle true 4, Event.evClickPlay 5])).1.is_recording
        = false ∧
    (clickStop (run [Event.evOpen (some ("/A.bag", (⟨0, 1, ["/a"]⟩ : Bag))),
        Event.evTimerTick (some [("/t", "std_msgs/String")]),
        Event.evRecordToggle true 4, Event.evClickPlay 5])).2 =
      (if (run [Event.evOpen (some ("/A.bag", (⟨0, 1, ["/a"]⟩ : Bag))),
          Event.evTimerTick (some [("/t", "std_msgs/String")]),
          Event.evRecordToggle true 4,
          Event.evClickPlay 5]).is_recording = true then
        [kill (run [Event.evOpen (some ("/A.bag", (⟨0, 1, ["/a"]⟩ : Bag))),
          Event.evTimerTick (some [("/t", "std_msgs/String")]),
          Event.evRecordToggle true 4, Event.evClickPlay 5]).recordNode]
        else []) ++
      (if (run [Event.evOpen (some ("/A.bag", (⟨0, 1, ["/a"]⟩ : Bag))),
          Event.evTimerTick (some [("/t", "std_msgs/String")]),
          Event.evRecordToggle true 4,
          Event.evClickPlay 5]).is_playing = true then
        [kill (run [Event.evOpen (some ("/A.bag", (⟨0, 1, ["/a"]⟩ : Bag))),
          Event.evTimerTick (some [("/t", "std_msgs/String")]),
          Event.evRecordToggle true 4, Event.evClickPlay 5]).playNode]
        else []) :=
  clickStop_stops_both
    [Event.evOpen (some ("/A.bag", (⟨0, 1, ["/a"]⟩ : Bag))),
      Event.evTimerTick (some [("/t", "std_msgs/String")]),
      Event.evRecordToggle true 4, Event.evClickPlay 5]

end BagPlayer

